import Mathlib

/-
Verification of the remove-subs subtitle-removal pipeline.

Shallow embedding of the pipeline orchestration layer:
  - storage staging client        (src/docker/s3_handler.py)
  - media I/O adapter             (src/docker/video_processor.py)
  - capability detector           (src/docker/gpu_detector.py)
  - mask synthesis / demo corpus  (src/docker/video_processor.py,
                                   src/docker/lama_zits_pipeline.py,
                                   src/notebook/lama_zits_pipeline.py)

External effects (the boto3 client, the ffmpeg/ffprobe binaries, the
filesystem, the CUDA runtime) are modelled as explicit environment
records describing the outcome of each external call; the Python
control flow around those calls is translated literally.  An operation
that raises an uncaught Python exception is modelled as returning
Option.none; a caught exception follows the except-branch of the
source.
-/

/- ---------------------------------------------------------------
   Storage staging client: S3Handler (src/docker/s3_handler.py)
   --------------------------------------------------------------- -/

/--
S3Handler.parse_s3_url (s3_handler.py lines 31-46).
The Python code requires the literal prefix "s3://", drops it, and
performs path.split('/', 1): if the remainder contains no '/' it
raises ValueError (modelled as none); otherwise bucket is the text
before the first '/' and key is everything after it.
-/
def parse_s3_url (s : String) : Option (String × String) :=
  let cs := s.toList
  if cs.take 5 = "s3://".toList then
    let path := cs.drop 5
    if path.contains '/' then
      some (⟨path.takeWhile (· != '/')⟩, ⟨(path.dropWhile (· != '/')).drop 1⟩)
    else
      none
  else
    none

example : parse_s3_url "s3://bucket/a/b/c" = some ("bucket", "a/b/c") := by decide
example : parse_s3_url "bucket/key" = none := by decide
example : parse_s3_url "s3://bucket" = none := by decide
example : parse_s3_url "s3://bucket/" = some ("bucket", "") := by decide

/--
Environment of one S3Handler.download_file call: whether the handler
was constructed with working credentials (self.aws_available), the
requested URL, whether the boto3 download call itself completes
without raising, and the state of the local file afterwards.
-/
structure DownloadEnv where
  awsAvailable : Bool
  url : String
  transferOk : Bool
  localExistsAfter : Bool
  localSizeAfter : Nat
deriving DecidableEq, Repr

/-- Observable outcome of S3Handler.download_file. -/
structure DownloadOutcome where
  result : Bool
  networkAttempted : Bool
  parentDirsCreated : Bool
deriving DecidableEq, Repr

/--
S3Handler.download_file (s3_handler.py lines 48-76).  Returns False
without touching the network when aws_available is false; parse_s3_url
raising ValueError is caught by the outer except and yields False
before makedirs or any network call; otherwise the code creates the
parent directories, performs the transfer, and returns True exactly
when os.path.exists(local_path) holds afterwards (the size is only
printed, never checked).
-/
def download_file (e : DownloadEnv) : DownloadOutcome :=
  if e.awsAvailable = false then ⟨false, false, false⟩
  else
    match parse_s3_url e.url with
    | none => ⟨false, false, false⟩
    | some _ =>
      if e.transferOk = false then ⟨false, true, true⟩
      else if e.localExistsAfter then ⟨true, true, true⟩
      else ⟨false, true, true⟩

/--
Environment of one S3Handler.upload_directory call: credential state,
the base URL, and the success of each individual boto3 upload_file
call in os.walk order (each is wrapped in its own try/except in the
source, so a failure is recorded and the walk continues).
-/
structure UploadDirEnv where
  awsAvailable : Bool
  baseUrl : String
  fileResults : List Bool
deriving DecidableEq, Repr

/--
S3Handler.upload_directory (s3_handler.py lines 103-133), returning
(overall result, uploaded_files count, per-file failure count).
Returns False with no uploads when aws_available is false, or when
parse_s3_url raises (caught by the outer except); otherwise walks the
whole list, counts successes, and returns uploaded_files > 0.
-/
def upload_directory (e : UploadDirEnv) : Bool × Nat × Nat :=
  if e.awsAvailable = false then (false, 0, 0)
  else
    match parse_s3_url e.baseUrl with
    | none => (false, 0, 0)
    | some _ =>
      let ok := e.fileResults.foldl (fun acc b => if b then acc + 1 else acc) 0
      let bad := e.fileResults.count false
      (decide (0 < ok), ok, bad)

/--
Environment of one S3Handler.check_file_exists call: credential state,
the URL, and whether the head_object probe succeeds (its failure is a
botocore ClientError, the only exception class the source catches).
-/
structure ExistsEnv where
  awsAvailable : Bool
  url : String
  headOk : Bool
deriving DecidableEq, Repr

/--
S3Handler.check_file_exists (s3_handler.py lines 135-145).  Returns
False immediately when aws_available is false.  Otherwise it calls
parse_s3_url inside a try block whose only handler is except
ClientError: a ValueError from a malformed URL propagates to the
caller, modelled as none.  A head_object ClientError is caught and
yields False; a successful probe yields True.
-/
def check_file_exists (e : ExistsEnv) : Option Bool :=
  if e.awsAvailable = false then some false
  else
    match parse_s3_url e.url with
    | none => none
    | some _ => some e.headOk

/- ---------------------------------------------------------------
   Media I/O adapter: VideoProcessor (src/docker/video_processor.py)
   --------------------------------------------------------------- -/

/-- One stream entry of the ffprobe JSON output. -/
structure StreamInfo where
  codec_type : String
  width : Nat
  height : Nat
  r_frame_rate : ℚ
deriving DecidableEq, Repr

/--
Environment of one ffprobe invocation: the tool's exit code, the
streams array of its JSON output, and the container duration.
-/
structure ProbeEnv where
  exitCode : Nat
  streams : List StreamInfo
  duration : ℚ
deriving DecidableEq, Repr

/-- VideoProcessor.get_video_info result record. -/
structure VideoInfo where
  width : Nat
  height : Nat
  fps : ℚ
  duration : ℚ
deriving DecidableEq, Repr

/--
VideoProcessor.get_video_info (video_processor.py lines 108-143).
When ffprobe exits 0 the code scans data.streams for the first entry
with codec_type == "video" and builds the info record from it
(r_frame_rate is a fraction evaluated to a rational); with no video
stream, or a nonzero ffprobe exit, it returns None.
-/
def get_video_info (e : ProbeEnv) : Option VideoInfo :=
  if e.exitCode = 0 then
    match e.streams.find? (fun s => s.codec_type == "video") with
    | some s => some ⟨s.width, s.height, s.r_frame_rate, e.duration⟩
    | none => none
  else none

/--
Environment of one VideoProcessor.extract_frames call: the probe
outcome, the ffmpeg exit code, and the .png files ffmpeg leaves in the
output directory (empty whenever ffmpeg is never invoked).
-/
structure ExtractEnv where
  probe : ProbeEnv
  ffmpegExit : Nat
  framesProduced : List String
deriving DecidableEq, Repr

/--
VideoProcessor.extract_frames (video_processor.py lines 19-62),
returning (result, files present in the output directory).  The code
creates the output directory, probes the video, and returns False
(having created no files) when get_video_info returns None.  It then
runs ffmpeg and returns True exactly when the exit code is 0; the
extracted-frame count is computed by listing the directory but is only
printed — an empty output directory with exit code 0 still yields
True.
-/
def extract_frames (e : ExtractEnv) : Bool × List String :=
  match get_video_info e.probe with
  | none => (false, [])
  | some _ =>
    if e.ffmpegExit = 0 then (true, e.framesProduced)
    else (false, e.framesProduced)

/-- Python str.endswith('.png') on a file name. -/
def hasPngExt (s : String) : Bool :=
  s.toList.reverse.take 4 == ".png".toList.reverse

/--
Environment of one VideoProcessor.create_video call: the directory
listing of frames_dir, the ffmpeg exit code, and whether the output
video file exists after the invocation.
-/
structure CreateVideoEnv where
  frameFiles : List String
  ffmpegExit : Nat
  outputExists : Bool
deriving DecidableEq, Repr

/--
VideoProcessor.create_video (video_processor.py lines 64-106),
returning (result, whether ffmpeg was invoked).  The code lists the
.png files of frames_dir and returns False before any invocation when
there are none; after running ffmpeg it returns True only when the
exit code is 0 and os.path.exists(output_path) holds — a zero exit
with a missing output file yields False.
-/
def create_video (e : CreateVideoEnv) : Bool × Bool :=
  let frame_files := e.frameFiles.filter hasPngExt
  if frame_files.isEmpty then (false, false)
  else if e.ffmpegExit = 0 then
    (if e.outputExists then true else false, true)
  else (false, true)

/- ---------------------------------------------------------------
   Capability detector: detect_gpu (src/docker/gpu_detector.py)
   --------------------------------------------------------------- -/

/--
State of the torch.cuda runtime subsystem as seen by detect_gpu.
Per the torch API contract, torch.cuda.is_available() returns a bool
and reports False both when no accelerator is present and when CUDA
initialization fails, so an absent or unqueryable accelerator
surfaces here as is_available = false; device_count, and the name and
total memory (bytes) of device 0, are the values the query functions
would return.
-/
structure CudaRuntime where
  is_available : Bool
  device_count : Nat
  device_name : String
  total_memory : Nat
deriving DecidableEq, Repr

/--
The configuration dictionary built by detect_gpu; gpu_name and
gpu_memory model keys that are present only in the GPU branch
(gpu_memory is total_memory / 1024^3, in GiB).
-/
structure GpuConfig where
  gpu_available : Bool
  gpu_count : Nat
  device : String
  download_weights : Bool
  gpu_name : Option String
  gpu_memory : Option ℚ
deriving DecidableEq, Repr

/--
detect_gpu (gpu_detector.py lines 11-27).  Builds the config from
torch.cuda.is_available(): gpu_count is device_count only when
available (else 0), device is "cuda" exactly when available (else
"cpu"), download_weights equals availability, and the name/memory
keys are added only in the available branch.
-/
def detect_gpu (rt : CudaRuntime) : GpuConfig :=
  let gpu_available := rt.is_available
  { gpu_available := gpu_available
    gpu_count := if gpu_available then rt.device_count else 0
    device := if gpu_available then "cuda" else "cpu"
    download_weights := gpu_available
    gpu_name := if gpu_available then some rt.device_name else none
    gpu_memory := if gpu_available then some ((rt.total_memory : ℚ) / 1024 ^ 3) else none }

/- ---------------------------------------------------------------
   Mask synthesis (video_processor.py generate_subtitle_masks;
   lama_zits_pipeline.py mask halves)
   --------------------------------------------------------------- -/

/-- A subtitle rectangle (x1, y1, x2, y2), pixel coordinates. -/
structure Region where
  x1 : Nat
  y1 : Nat
  x2 : Nat
  y2 : Nat
deriving DecidableEq, Repr

/--
The value cv2.rectangle(mask, (x1,y1), (x2,y2), 255, -1) leaves at an
in-canvas pixel (x, y) of an all-zero single-channel canvas: OpenCV
fills the closed rectangle whose opposite corners are (x1,y1) and
(x2,y2) — both corner columns and rows included — clipped to the
canvas, so an in-canvas pixel is 255 exactly when x1 ≤ x ≤ x2 and
y1 ≤ y ≤ y2.
-/
def maskPixel (r : Region) (x y : Nat) : Nat :=
  if r.x1 ≤ x ∧ x ≤ r.x2 ∧ r.y1 ≤ y ∧ y ≤ r.y2 then 255 else 0

/--
The single-channel mask image built by np.zeros((h, w), dtype=uint8)
followed by cv2.rectangle(mask, (x1,y1), (x2,y2), 255, -1), as its
list of pixel rows (video_processor.py lines 162-165,
docker lama_zits_pipeline.py lines 79-81,
notebook lama_zits_pipeline.py lines 54-56; the sources instantiate
it at the 256 by 256 working size).
-/
def makeMask (w h : Nat) (r : Region) : List (List Nat) :=
  (List.range h).map fun y => (List.range w).map fun x => maskPixel r x y

/-- Pixel lookup in a row-list image, 0 outside the stored rows. -/
def pixelAt (img : List (List Nat)) (x y : Nat) : Nat :=
  (img.getD y []).getD x 0

/--
VideoProcessor.generate_subtitle_masks (video_processor.py lines
145-176), returning (result, the masks written).  With a None region
the default (0, 205, 256, 256) is used; with no .png frame files it
returns False having written nothing; otherwise it writes one 256 by
256 mask per frame file, named by replacing the prefix text
"frame_" with "mask_".
-/
def generate_subtitle_masks (frameFiles : List String) (region : Option Region) :
    Bool × List (String × List (List Nat)) :=
  let r := region.getD ⟨0, 205, 256, 256⟩
  let frame_files := frameFiles.filter hasPngExt
  if frame_files.isEmpty then (false, [])
  else
    (true, frame_files.map fun f => (f.replace "frame_" "mask_", makeMask 256 256 r))

/- ---------------------------------------------------------------
   Synthetic demo corpus (docker lama_zits_pipeline.py
   generate_synthetic_data; notebook lama_zits_pipeline.py
   generate_test_data)
   --------------------------------------------------------------- -/

/-- A 3-channel image as a pixel function: (x, y) to an RGB triple. -/
def Img : Type := Nat → Nat → Nat × Nat × Nat

/--
Ambient process state a generator could in principle read: a
pseudo-random seed and a clock.  Neither generator reads either —
the sources call no random or time facility — which is the content
of the determinism claim.
-/
structure World where
  rngSeed : Nat
  wallClock : Nat
deriving DecidableEq, Repr

/-- Python format spec 0Nd: decimal digits left-padded with zeros. -/
def padNum (width n : Nat) : String :=
  let s := toString n
  String.mk (List.replicate (width - s.length) '0') ++ s

/--
The deterministic OpenCV raster primitives used by the notebook
generator, passed explicitly: putText takes the text, origin,
fontScale, BGR color and thickness.  Fixing them as a parameter
models that cv2 draws the same pixels for the same arguments on
every run.
-/
structure DrawPrims where
  putText : String → Nat × Nat → ℚ → Nat × Nat × Nat → Nat → Img → Img

/--
The gradient row color of the notebook generator (lines 40-41):
img[y, :] = [255 - y//3, 200 + y//8, 180 + y//4], stored in a uint8
array (hence mod 256; at the 256-row size of every call site the
values never exceed 255).
-/
def gradientPixel (y : Nat) : Nat × Nat × Nat :=
  ((255 - y / 3) % 256, (200 + y / 8) % 256, (180 + y / 4) % 256)

/--
One frame of the notebook generator (lines 35-51): the gradient
background, then the three putText overlays with the source's
literal arguments.
-/
def testFrame (p : DrawPrims) (i : Nat) : Img :=
  p.putText ("Subtitle text " ++ toString (i + 1)) (40, 240) (7/10) (0, 0, 0) 2
    (p.putText "Sample Content" (50, 120) (3/5) (50, 50, 50) 1
      (p.putText ("Video Frame " ++ toString (i + 1)) (50, 80) (4/5) (0, 0, 0) 2
        (fun _ y => gradientPixel y)))

/-- A generated corpus: named frames and named masks. -/
structure Corpus where
  frames : List (String × Img)
  masks : List (String × List (List Nat))

/--
generate_test_data (notebook lama_zits_pipeline.py lines 13-65),
parameterized by the config values (frame_count, frame_size as
(rows, cols), subtitle_region).  For each i in range(frame_count) it
writes frame_{i:03d}.png (0-based, 3-digit) and the paired mask
mask_{i:03d}.png produced by the zeros-canvas-plus-filled-rectangle
pattern.  The World argument is threaded in to state determinism and
is never read, exactly as the source reads no random or time input.
-/
def generate_test_data (p : DrawPrims) (frameCount : Nat) (frameSize : Nat × Nat)
    (region : Region) (_w : World) : Corpus :=
  { frames := (List.range frameCount).map fun i =>
      ("frame_" ++ padNum 3 i ++ ".png", testFrame p i)
    masks := (List.range frameCount).map fun i =>
      ("mask_" ++ padNum 3 i ++ ".png", makeMask frameSize.2 frameSize.1 region) }

/--
The deterministic raster and numeric primitives used by the docker
generator, passed explicitly: the sin-based animated background color
(arguments: frame_count, i, x, y — lines 37-44), putText, the filled
circle of the moving marker with its sin/cos center (lines 53-55),
the filled rectangle of the subtitle backdrop, and the width
component of cv2.getTextSize (text, fontScale, thickness).
-/
structure SynthPrims where
  bgPixel : Nat → Nat → Nat → Nat → Nat × Nat × Nat
  putText : String → Nat × Nat → ℚ → Nat × Nat × Nat → Nat → Img → Img
  markerCenter : Nat → Nat × Nat
  circle : Nat × Nat → Nat → Nat × Nat × Nat → Img → Img
  rectOnImg : Nat × Nat → Nat × Nat → Nat × Nat × Nat → Img → Img
  textWidth : String → ℚ → Nat → Nat

/--
The rotating subtitle line of the docker generator (lines 58-65):
subtitle_texts[i % len(subtitle_texts)].
-/
def subtitleText (i : Nat) : String :=
  match i % 5 with
  | 0 => "This is a sample subtitle"
  | 1 => "Subtitle text to remove"
  | 2 => "Burnt-in subtitle example"
  | 3 => "Frame " ++ toString (i + 1) ++ " subtitle"
  | _ => "AI will remove this text"

/--
One frame of the docker generator (lines 32-76): animated background,
two content texts, the moving marker circle, the subtitle backdrop
box sized from getTextSize, and the subtitle text, with the source's
literal arguments.
-/
def synthFrame (p : SynthPrims) (frameCount i : Nat) : Img :=
  let subtitle := subtitleText i
  let tw := p.textWidth subtitle (1/2) 2
  p.putText subtitle (15, 235) (1/2) (255, 255, 255) 2
    (p.rectOnImg (10, 215) (tw + 20, 245) (0, 0, 0)
      (p.circle (p.markerCenter i) 15 (0, 255, 255)
        (p.putText "Sample Content" (20, 80) (1/2) (200, 200, 200) 1
          (p.putText ("Test Video Frame " ++ padNum 2 (i + 1)) (20, 50) (3/5) (255, 255, 255) 2
            (p.bgPixel frameCount i)))))

/--
generate_synthetic_data (docker lama_zits_pipeline.py lines 12-90),
parameterized by the config values.  For each i in
range(frame_count) it writes frame_{i+1:05d}.png (1-based, 5-digit)
and the paired mask mask_{i+1:05d}.png from the
zeros-canvas-plus-filled-rectangle pattern.  The World argument is
threaded in to state determinism and is never read.
-/
def generate_synthetic_data (p : SynthPrims) (frameCount : Nat) (frameSize : Nat × Nat)
    (region : Region) (_w : World) : Corpus :=
  { frames := (List.range frameCount).map fun i =>
      ("frame_" ++ padNum 5 (i + 1) ++ ".png", synthFrame p frameCount i)
    masks := (List.range frameCount).map fun i =>
      ("mask_" ++ padNum 5 (i + 1) ++ ".png", makeMask frameSize.2 frameSize.1 region) }

/- ---------------------------------------------------------------
   Helper lemmas
   --------------------------------------------------------------- -/

/-- The uploaded-files counter loop computes the number of successes. -/
theorem foldl_count_true (l : List Bool) (n : Nat) :
    l.foldl (fun acc b => if b then acc + 1 else acc) n = n + l.count true := by
  induction l generalizing n with
  | nil => simp
  | cons a t ih =>
    cases a
    · simp [List.count_cons, ih]
    · simp [List.count_cons, ih]
      omega

/-- Successes and failures of a walk partition its files. -/
theorem count_true_add_count_false (l : List Bool) :
    l.count true + l.count false = l.length := by
  induction l with
  | nil => rfl
  | cons a t ih => cases a <;> simp [List.count_cons] <;> omega

/-- Indexing a mapped range with a default value, in bounds. -/
theorem getD_map_range {α : Type} (f : Nat → α) (n i : Nat) (d : α) (h : i < n) :
    ((List.range n).map f).getD i d = f i := by
  rw [List.getD_eq_getElem?_getD, List.getElem?_map, List.getElem?_range h]
  rfl

/-- An in-canvas pixel of makeMask is maskPixel. -/
theorem pixelAt_makeMask (w h : Nat) (r : Region) (x y : Nat)
    (hx : x < w) (hy : y < h) :
    pixelAt (makeMask w h r) x y = maskPixel r x y := by
  unfold pixelAt makeMask
  rw [getD_map_range _ _ _ _ hy, getD_map_range _ _ _ _ hx]

/- ---------------------------------------------------------------
   Claim C2 (corrected)
   --------------------------------------------------------------- -/

/--
Claim C2, counterexample.  parse_s3_url accepts "s3://bucket/" with an
empty key and "s3:///key" with an empty bucket, contradicting the
claim that it fails for every URI lacking a non-empty key segment
after the bucket and that every accepted locator has non-empty bucket
and non-empty key.
-/
theorem parse_s3_url_empty_key_counterexample :
    parse_s3_url "s3://bucket/" = some ("bucket", "") ∧
    parse_s3_url "s3:///key" = some ("", "key") := by
  constructor <;> decide

/--
Claim C2, amended.  parse_s3_url (a pure function, so it fails before
any network call) maps "s3://bucket/a/b/c" to bucket "bucket" and key
"a/b/c" (every additional "/" of the remainder stays in the key), and
fails for every URI that lacks the "s3://" scheme prefix and for
every URI whose remainder after the prefix position contains no "/"
separator at all; however the bucket and key of an accepted locator
may be empty (a URI with a "/" after the bucket is accepted even when
nothing follows it).
-/
theorem parse_s3_url_spec :
    parse_s3_url "s3://bucket/a/b/c" = some ("bucket", "a/b/c") ∧
    parse_s3_url "bucket/key" = none ∧
    parse_s3_url "s3://bucket" = none ∧
    (∀ s : String, ¬ s.toList.take 5 = "s3://".toList → parse_s3_url s = none) ∧
    (∀ s : String, (s.toList.drop 5).contains '/' = false → parse_s3_url s = none) := by
  refine ⟨by decide, by decide, by decide, ?_, ?_⟩
  · intro s h
    simp only [parse_s3_url]
    rw [if_neg h]
  · intro s h
    simp [parse_s3_url]
    intro _
    simpa using h

/--
Claim C2, witness: the scheme-missing and separator-missing branches
of parse_s3_url_spec at concrete URIs.
-/
theorem parse_s3_url_spec_witness :
    parse_s3_url "http://bucket/key" = none ∧
    parse_s3_url "s3://bucketonly" = none := by
  have h := parse_s3_url_spec
  exact ⟨h.2.2.2.1 "http://bucket/key" (by decide),
         h.2.2.2.2 "s3://bucketonly" (by decide)⟩

/- ---------------------------------------------------------------
   Claim C5 (corrected)
   --------------------------------------------------------------- -/

/--
Claim C5, counterexample.  A download that leaves an existing
zero-byte local file is reported as success: download_file checks only
os.path.exists, never the size, contradicting the claim that a
zero-byte result after a successful call is treated as failure.
-/
theorem download_file_zero_byte_counterexample :
    (download_file ⟨true, "s3://bucket/key", true, true, 0⟩).result = true ∧
    (⟨true, "s3://bucket/key", true, true, 0⟩ : DownloadEnv).localSizeAfter = 0 := by
  constructor <;> decide

/--
Claim C5, amended.  download_file fails fast without attempting
network I/O when storage credentials were never established at
client-construction time, creates parent directories for the local
path whenever it proceeds past locator parsing, and treats a missing
local result after a successful call as failure; an existing
zero-byte result, however, is reported as success (only existence is
verified, the size is only reported).
-/
theorem download_file_guards (e : DownloadEnv) :
    (e.awsAvailable = false → download_file e = ⟨false, false, false⟩) ∧
    (e.awsAvailable = true → (parse_s3_url e.url).isSome = true →
      (download_file e).parentDirsCreated = true) ∧
    ((download_file e).result = true → e.localExistsAfter = true) := by
  refine ⟨?_, ?_, ?_⟩
  · intro h
    simp [download_file, h]
  · intro h hp
    obtain ⟨v, hv⟩ := Option.isSome_iff_exists.mp hp
    cases hv2 : e.transferOk <;> cases hv3 : e.localExistsAfter <;>
      simp [download_file, h, hv, hv2, hv3]
  · intro h
    cases h1 : e.awsAvailable
    · simp [download_file, h1] at h
    · cases hv : parse_s3_url e.url with
      | none => simp [download_file, h1, hv] at h
      | some v =>
        cases hv2 : e.transferOk <;> cases hv3 : e.localExistsAfter <;>
          simp [download_file, h1, hv, hv2, hv3] at h ⊢

/--
Claim C5, witness: the three guards of download_file_guards at
concrete environments (no credentials; a transfer that raises after
directory creation; a completed transfer with an existing result).
-/
theorem download_file_guards_witness :
    download_file ⟨false, "s3://b/k", true, true, 5⟩ = ⟨false, false, false⟩ ∧
    (download_file ⟨true, "s3://b/k", false, false, 0⟩).parentDirsCreated = true ∧
    (⟨true, "s3://b/k", true, true, 7⟩ : DownloadEnv).localExistsAfter = true := by
  exact ⟨(download_file_guards ⟨false, "s3://b/k", true, true, 5⟩).1 rfl,
         (download_file_guards ⟨true, "s3://b/k", false, false, 0⟩).2.1 rfl (by decide),
         (download_file_guards ⟨true, "s3://b/k", true, true, 7⟩).2.2 (by decide)⟩

/- ---------------------------------------------------------------
   Claim C6 (corrected)
   --------------------------------------------------------------- -/

/--
Claim C6, counterexample.  With credentials available and a malformed
locator, check_file_exists raises (parse_s3_url's ValueError is not a
ClientError, the only class the source catches), contradicting the
claim that exists never raises and returns false for every erroneous
probe.
-/
theorem check_file_exists_malformed_raises_counterexample :
    check_file_exists ⟨true, "bucket/key", true⟩ = none := by decide

/--
Claim C6, amended.  check_file_exists returns false (not an error) for
every locator when the remote client is in the remote-unavailable
state, and an error of the head_object probe itself (a ClientError) is
treated as does-not-exist; but when the client is available a
malformed locator raises the parse error instead of returning false —
the only raising runs are exactly those with credentials available and
an unparsable locator.
-/
theorem check_file_exists_guards (e : ExistsEnv) :
    (e.awsAvailable = false → check_file_exists e = some false) ∧
    (e.awsAvailable = true → (parse_s3_url e.url).isSome = true → e.headOk = false →
      check_file_exists e = some false) ∧
    (check_file_exists e = none →
      e.awsAvailable = true ∧ parse_s3_url e.url = none) := by
  refine ⟨?_, ?_, ?_⟩
  · intro h
    simp [check_file_exists, h]
  · intro h hp hh
    obtain ⟨v, hv⟩ := Option.isSome_iff_exists.mp hp
    simp [check_file_exists, h, hv, hh]
  · intro h
    cases h1 : e.awsAvailable
    · simp [check_file_exists, h1] at h
    · cases hv : parse_s3_url e.url with
      | none => exact ⟨rfl, rfl⟩
      | some v => simp [check_file_exists, h1, hv] at h

/--
Claim C6, witness: check_file_exists at a remote-unavailable client
with a malformed locator, at an available client whose head probe
errors, and at the raising run of the counterexample environment.
-/
theorem check_file_exists_guards_witness :
    check_file_exists ⟨false, "bucket/key", true⟩ = some false ∧
    check_file_exists ⟨true, "s3://b/k", false⟩ = some false ∧
    ((⟨true, "nope", true⟩ : ExistsEnv).awsAvailable = true ∧
      parse_s3_url (⟨true, "nope", true⟩ : ExistsEnv).url = none) := by
  exact ⟨(check_file_exists_guards ⟨false, "bucket/key", true⟩).1 rfl,
         (check_file_exists_guards ⟨true, "s3://b/k", false⟩).2.1 rfl (by decide) rfl,
         (check_file_exists_guards ⟨true, "nope", true⟩).2.2 (by decide)⟩

/- ---------------------------------------------------------------
   Claim C1 (corrected)
   --------------------------------------------------------------- -/

/--
A run where ffprobe finds a video stream and ffmpeg exits 0 but the
output directory ends up empty.
-/
def extractEmptyOutputEnv : ExtractEnv :=
  { probe := { exitCode := 0, streams := [⟨"video", 640, 480, 25⟩], duration := 10 }
    ffmpegExit := 0
    framesProduced := [] }

/--
Claim C1, counterexample.  With a successful probe and a zero ffmpeg
exit, extract_frames returns success even though the output directory
ends up empty: the frame count is computed by listing the directory
but only printed, never checked, contradicting the claim that an
empty output directory after the invocation is reported as failure.
-/
theorem extract_frames_empty_output_counterexample :
    extract_frames extractEmptyOutputEnv = (true, []) ∧
    (get_video_info extractEmptyOutputEnv.probe).isSome = true := by
  constructor <;> rfl

/--
Claim C1, amended.  extract_frames reports failure when the
underlying probe finds no video stream (returning failure without
creating any output files, also for every other probe failure) and
when the tool invocation exits nonzero; an empty output directory
after a zero-exit invocation is, however, still reported as success.
-/
theorem extract_frames_failure_conditions (e : ExtractEnv) :
    ((∀ s ∈ e.probe.streams, ¬ s.codec_type = "video") →
      extract_frames e = (false, [])) ∧
    (get_video_info e.probe = none → extract_frames e = (false, [])) ∧
    (e.ffmpegExit ≠ 0 → (extract_frames e).1 = false) := by
  have hnone : ∀ hinfo : get_video_info e.probe = none, extract_frames e = (false, []) := by
    intro hinfo
    unfold extract_frames
    rw [hinfo]
  refine ⟨?_, hnone, ?_⟩
  · intro hno
    have hfind : e.probe.streams.find? (fun s => s.codec_type == "video") = none := by
      rw [List.find?_eq_none]
      intro s hs
      simpa using hno s hs
    refine hnone ?_
    unfold get_video_info
    rw [hfind]
    split <;> rfl
  · intro hne
    unfold extract_frames
    cases hinfo : get_video_info e.probe with
    | none => rfl
    | some v =>
      rw [if_neg hne]

/--
A run on a source with zero video streams whose ffmpeg exit (never
reached) would be nonzero.
-/
def extractNoStreamEnv : ExtractEnv :=
  { probe := { exitCode := 0, streams := [⟨"audio", 0, 0, 0⟩], duration := 10 }
    ffmpegExit := 1
    framesProduced := [] }

/--
Claim C1, witness: the no-video-stream and nonzero-exit branches of
extract_frames_failure_conditions at a concrete environment.
-/
theorem extract_frames_failure_conditions_witness :
    extract_frames extractNoStreamEnv = (false, []) ∧
    (extract_frames extractNoStreamEnv).1 = false := by
  have h := extract_frames_failure_conditions extractNoStreamEnv
  exact ⟨h.1 (by decide), h.2.2 (by decide)⟩

/- ---------------------------------------------------------------
   Claim C3 (confirmed)
   --------------------------------------------------------------- -/

/--
Claim C3.  create_video requires at least one .png frame: on an empty
frame directory it returns failure without invoking the codec tool;
and it declares success only when the output video file exists and
the tool exited 0, so a missing output file is failure even when the
exit code was 0.
-/
theorem create_video_requires_frames_and_output (e : CreateVideoEnv) :
    (e.frameFiles = [] → create_video e = (false, false)) ∧
    ((create_video e).1 = true → e.outputExists = true ∧ e.ffmpegExit = 0) ∧
    (e.ffmpegExit = 0 → e.outputExists = false → (create_video e).1 = false) := by
  refine ⟨?_, ?_, ?_⟩
  · intro h
    simp [create_video, h]
  · intro h
    by_cases h1 : (e.frameFiles.filter hasPngExt).isEmpty
    · simp [create_video, h1] at h
    · by_cases h2 : e.ffmpegExit = 0
      · simp [create_video, h1, h2] at h
        exact ⟨h, h2⟩
      · simp [create_video, h1, h2] at h
  · intro h2 h3
    by_cases h1 : (e.frameFiles.filter hasPngExt).isEmpty
    · simp [create_video, h1]
    · simp [create_video, h1, h2, h3]

/--
Claim C3, witness: create_video on an empty directory, on a zero-exit
run with a missing output file, and on a successful run.
-/
theorem create_video_requires_frames_and_output_witness :
    create_video ⟨[], 0, true⟩ = (false, false) ∧
    (create_video ⟨["frame_00001.png"], 0, false⟩).1 = false ∧
    ((⟨["frame_00001.png"], 0, true⟩ : CreateVideoEnv).outputExists = true ∧
      (⟨["frame_00001.png"], 0, true⟩ : CreateVideoEnv).ffmpegExit = 0) := by
  exact ⟨(create_video_requires_frames_and_output ⟨[], 0, true⟩).1 rfl,
         (create_video_requires_frames_and_output ⟨["frame_00001.png"], 0, false⟩).2.2 rfl rfl,
         (create_video_requires_frames_and_output ⟨["frame_00001.png"], 0, true⟩).2.1 (by decide)⟩

/- ---------------------------------------------------------------
   Claim C4 (confirmed)
   --------------------------------------------------------------- -/

/--
Claim C4.  upload_directory satisfies the partial-failure contract on
every run: the overall call succeeds exactly when at least one file
uploaded (also on runs without credentials or with an unparsable base
locator, which upload nothing and fail); and with credentials and a
parsable base locator the walk covers the whole file list — the
uploaded count is the number of successes of the entire walk and
every per-file failure of the entire walk is recorded in the error
count, no matter how many uploads fail — so in particular with N
files and exactly one failing upload it reports N-1 uploaded files
and overall success exactly when N-1 > 0.
-/
theorem upload_directory_partial_failure (e : UploadDirEnv) :
    ((upload_directory e).1 = true ↔ 0 < (upload_directory e).2.1) ∧
    (e.awsAvailable = true → (parse_s3_url e.baseUrl).isSome = true →
      (upload_directory e).2.1 = e.fileResults.count true ∧
      (upload_directory e).2.2 = e.fileResults.count false ∧
      (e.fileResults.count false = 1 →
        (upload_directory e).2.1 = e.fileResults.length - 1 ∧
        ((upload_directory e).1 = true ↔ 0 < e.fileResults.length - 1))) := by
  have hiff : (upload_directory e).1 = true ↔ 0 < (upload_directory e).2.1 := by
    cases haws : e.awsAvailable
    · simp [upload_directory, haws]
    · cases hv : parse_s3_url e.baseUrl with
      | none => simp [upload_directory, haws, hv]
      | some v =>
        simp only [upload_directory, haws, hv]
        simp
  refine ⟨hiff, ?_⟩
  intro haws hparse
  obtain ⟨v, hv⟩ := Option.isSome_iff_exists.mp hparse
  have hok : (upload_directory e).2.1 = e.fileResults.count true := by
    simp only [upload_directory, haws, hv]
    simp [foldl_count_true]
  have hbad : (upload_directory e).2.2 = e.fileResults.count false := by
    simp only [upload_directory, haws, hv]
    simp
  refine ⟨hok, hbad, ?_⟩
  intro hone
  have hpart := count_true_add_count_false e.fileResults
  have hlen : (upload_directory e).2.1 = e.fileResults.length - 1 := by
    rw [hok]
    omega
  exact ⟨hlen, by rw [hiff, hlen]⟩

/--
Claim C4, witness: a three-file walk whose second upload fails
reports 2 uploads, one per-file error, and overall success; and a
two-file walk where every upload fails reports 0 uploads and overall
failure (success holds exactly when at least one file uploaded).
-/
theorem upload_directory_partial_failure_witness :
    ((upload_directory ⟨true, "s3://bucket/out", [false, false]⟩).1 = true ↔
      0 < (upload_directory ⟨true, "s3://bucket/out", [false, false]⟩).2.1) ∧
    (upload_directory ⟨true, "s3://bucket/out", [true, false, true]⟩).2.1 = 2 ∧
    (upload_directory ⟨true, "s3://bucket/out", [true, false, true]⟩).2.2 = 1 ∧
    ((upload_directory ⟨true, "s3://bucket/out", [true, false, true]⟩).1 = true ↔ 0 < 2) := by
  have hall := (upload_directory_partial_failure ⟨true, "s3://bucket/out", [false, false]⟩).1
  have h := (upload_directory_partial_failure ⟨true, "s3://bucket/out", [true, false, true]⟩).2
    rfl (by decide)
  exact ⟨hall, (h.2.2 (by decide)).1, h.2.1, (h.2.2 (by decide)).2⟩

/- ---------------------------------------------------------------
   Claim C7 (confirmed)
   --------------------------------------------------------------- -/

/--
Claim C7.  detect_gpu is a total function of the runtime state — it
never fails — and whenever the accelerator subsystem reports
unavailability (which, per the torch contract, also covers an absent
accelerator and a failed CUDA initialization query), it returns the
conservative CPU profile: gpu_available = false, device = "cpu",
download_weights = false (with gpu_count 0 and no name or memory).
-/
theorem detect_gpu_degrades_to_cpu (rt : CudaRuntime) (h : rt.is_available = false) :
    detect_gpu rt =
      { gpu_available := false, gpu_count := 0, device := "cpu",
        download_weights := false, gpu_name := none, gpu_memory := none } := by
  simp [detect_gpu, h]

/--
Claim C7, witness: detect_gpu on a runtime with no accelerator.
-/
theorem detect_gpu_degrades_to_cpu_witness :
    detect_gpu ⟨false, 0, "", 0⟩ =
      { gpu_available := false, gpu_count := 0, device := "cpu",
        download_weights := false, gpu_name := none, gpu_memory := none } :=
  detect_gpu_degrades_to_cpu ⟨false, 0, "", 0⟩ rfl

/- ---------------------------------------------------------------
   Claim C10 (confirmed)
   --------------------------------------------------------------- -/

/--
Claim C10.  Every profile detect_gpu returns is internally
consistent: device is "cuda" exactly when gpu_available, the
download_weights flag equals gpu_available, gpu_count is 0 whenever
gpu_available is false, and the name and memory fields are present
exactly when gpu_available is true.
-/
theorem detect_gpu_profile_invariant (rt : CudaRuntime) :
    ((detect_gpu rt).device = "cuda" ↔ (detect_gpu rt).gpu_available = true) ∧
    (detect_gpu rt).download_weights = (detect_gpu rt).gpu_available ∧
    ((detect_gpu rt).gpu_available = false → (detect_gpu rt).gpu_count = 0) ∧
    ((detect_gpu rt).gpu_name.isSome = true ↔ (detect_gpu rt).gpu_available = true) ∧
    ((detect_gpu rt).gpu_memory.isSome = true ↔ (detect_gpu rt).gpu_available = true) := by
  cases h : rt.is_available <;> simp [detect_gpu, h]

/--
Claim C10, witness: the profile consistency facts at a CPU-only
runtime, discharging the gpu_available = false hypothesis of the
count clause.
-/
theorem detect_gpu_profile_invariant_witness :
    (detect_gpu ⟨false, 3, "vgpu", 1024⟩).gpu_count = 0 ∧
    (detect_gpu ⟨false, 3, "vgpu", 1024⟩).download_weights =
      (detect_gpu ⟨false, 3, "vgpu", 1024⟩).gpu_available := by
  have h := detect_gpu_profile_invariant ⟨false, 3, "vgpu", 1024⟩
  exact ⟨h.2.2.1 rfl, h.2.1⟩

/- ---------------------------------------------------------------
   Claim C8 (corrected)
   --------------------------------------------------------------- -/

/--
Stated from the claim's words, for comparison with makeMask (which is
translated from the source): the half-open reading of the region
constraint 0 ≤ x1 < x2 ≤ width, 0 ≤ y1 < y2 ≤ height, in which an
in-image pixel equals the fill value 255 exactly when
x1 ≤ x < x2 and y1 ≤ y < y2, and equals zero otherwise.
-/
def maskSpecHalfOpen (w h : Nat) (r : Region) (img : List (List Nat)) : Prop :=
  ∀ x y, x < w → y < h →
    ((r.x1 ≤ x ∧ x < r.x2 ∧ r.y1 ≤ y ∧ y < r.y2) → pixelAt img x y = 255) ∧
    (¬(r.x1 ≤ x ∧ x < r.x2 ∧ r.y1 ≤ y ∧ y < r.y2) → pixelAt img x y = 0)

/--
Claim C8, counterexample.  At the valid region (30, 220, 230, 250) of
a 256 by 256 image, the pixel (230, 220) lies outside the half-open
region yet the synthesized mask holds 255 there: cv2.rectangle with
thickness -1 fills the closed rectangle, both far edges included, so
the produced image does not satisfy the claimed inside-255/outside-0
partition at the region boundary.
-/
theorem makeMask_half_open_counterexample :
    (30 < 230 ∧ 230 ≤ 256 ∧ 220 < 250 ∧ 250 ≤ 256) ∧
    pixelAt (makeMask 256 256 ⟨30, 220, 230, 250⟩) 230 220 = 255 ∧
    ¬ maskSpecHalfOpen 256 256 ⟨30, 220, 230, 250⟩
        (makeMask 256 256 ⟨30, 220, 230, 250⟩) := by
  refine ⟨by decide, ?_, ?_⟩
  · rw [pixelAt_makeMask 256 256 _ 230 220 (by decide) (by decide)]
    decide
  · intro hspec
    have h := (hspec 230 220 (by decide) (by decide)).2 (by decide)
    rw [pixelAt_makeMask 256 256 _ 230 220 (by decide) (by decide)] at h
    exact absurd h (by decide)

/--
Claim C8, amended.  For every valid (x1, y1, x2, y2, width, height)
with 0 ≤ x1 < x2 ≤ width and 0 ≤ y1 < y2 ≤ height, mask synthesis
produces a single-channel image of identical pixel dimensions to its
frame (height rows of width pixels) in which every pixel inside the
closed region — x1 ≤ x ≤ x2 and y1 ≤ y ≤ y2, the far edges included
as OpenCV's filled rectangle draws them, clamped to the image bounds
— equals the fill value 255, and every pixel strictly outside that
closed region equals zero.
-/
theorem makeMask_inclusive_region (w h : Nat) (r : Region)
    (_hx : r.x1 < r.x2) (_hxw : r.x2 ≤ w) (_hy : r.y1 < r.y2) (_hyh : r.y2 ≤ h) :
    (makeMask w h r).length = h ∧
    (∀ row ∈ makeMask w h r, row.length = w) ∧
    (∀ x y, x < w → y < h →
      ((r.x1 ≤ x ∧ x ≤ r.x2 ∧ r.y1 ≤ y ∧ y ≤ r.y2) →
        pixelAt (makeMask w h r) x y = 255) ∧
      ((x < r.x1 ∨ r.x2 < x ∨ y < r.y1 ∨ r.y2 < y) →
        pixelAt (makeMask w h r) x y = 0)) := by
  refine ⟨by simp [makeMask], ?_, ?_⟩
  · intro row hrow
    simp only [makeMask, List.mem_map] at hrow
    obtain ⟨y, hy2, rfl⟩ := hrow
    simp
  · intro x y hxw2 hyh2
    rw [pixelAt_makeMask w h r x y hxw2 hyh2]
    constructor
    · intro hin
      simp only [maskPixel]
      rw [if_pos hin]
    · intro hout
      simp only [maskPixel]
      rw [if_neg (by omega)]

/--
Claim C8, witness: the amended mask property at the 256 by 256
working size with region (30, 220, 230, 250), evaluated at an inside
pixel and at an outside pixel.
-/
theorem makeMask_inclusive_region_witness :
    pixelAt (makeMask 256 256 ⟨30, 220, 230, 250⟩) 30 220 = 255 ∧
    pixelAt (makeMask 256 256 ⟨30, 220, 230, 250⟩) 0 0 = 0 := by
  have h := makeMask_inclusive_region 256 256 ⟨30, 220, 230, 250⟩
    (by decide) (by decide) (by decide) (by decide)
  exact ⟨(h.2.2 30 220 (by decide) (by decide)).1 (by decide),
         (h.2.2 0 0 (by decide) (by decide)).2 (by decide)⟩

/- ---------------------------------------------------------------
   Claim C9 (confirmed)
   --------------------------------------------------------------- -/

/--
Claim C9.  Synthetic corpus generation is deterministic: for every
fixed (frameCount, frameSize, region) — and every fixed set of
deterministic raster primitives, since cv2 and the sin-based
arithmetic draw the same pixels for the same arguments on every run —
two runs of either generator in arbitrary ambient worlds (arbitrary
random seed and clock) produce identical named frame and mask sets:
neither generator reads randomness or any input other than its
parameters.
-/
theorem corpus_generation_deterministic
    (pn : DrawPrims) (pd : SynthPrims) (frameCount : Nat) (frameSize : Nat × Nat)
    (region : Region) (w1 w2 : World) :
    generate_test_data pn frameCount frameSize region w1 =
      generate_test_data pn frameCount frameSize region w2 ∧
    generate_synthetic_data pd frameCount frameSize region w1 =
      generate_synthetic_data pd frameCount frameSize region w2 :=
  ⟨rfl, rfl⟩
